import Mathlib

/-!
Verification development for the script_forge repository.

The subject is the S3 bulk transfer manager, which appears in the repository
in three relevant variants:

* src/s3_tools.py               -- thread-pool manager (pooled mode only);
* src/utils/s3/s3_tools.py      -- the full manager with pooled, async and
                                   hybrid bulk modes (superset of the above);
* src/s3_utils.py               -- the legacy manager with per-file calls and
                                   a plain parallel_download helper.

The embedding below models:

* pathlib pure paths (absolute flag plus normalized segments) as used for the
  destination-path computation of downloads and the destination-key
  computation of uploads;
* per-file transfer operations as functions from an environment recording
  which side-effecting step (mkdir, head_object, open, download, getsize,
  upload) raises which exception, to an Except value: an Except.error result
  models an exception escaping the operation, an Except.ok result models a
  normal return;
* the two result-aggregation loops: the _process_operations loop over
  concurrent.futures.as_completed results (identical text in src/s3_tools.py
  and src/utils/s3/s3_tools.py) and the counting loop over
  asyncio.gather(..., return_exceptions=True) results used by the async and
  hybrid bulk operations;
* the list_files operation over a model of the ListObjectsV2 response.
-/

set_option autoImplicit false

namespace ScriptForge

/-- Exceptions raised by side-effecting steps.  botocore ClientError (the
store-client error caught by -- for instance -- s3_utils.py list_objects and
download_file) is distinguished from every other Exception. -/
inductive Exc where
  | clientError (msg : String)
  | otherError (msg : String)
deriving DecidableEq

/-- Whether the exception is a botocore ClientError. -/
def Exc.isClientError : Exc → Bool
  | Exc.clientError _ => true
  | Exc.otherError _ => false

/-- Does the first character list begin with the second?  Executable model of
the Python str.startswith test on the underlying characters. -/
def charsBeginWith : List Char → List Char → Bool
  | _, [] => true
  | [], _ :: _ => false
  | a :: as, b :: bs => (a == b) && charsBeginWith as bs

/-- Python s.startswith(p). -/
def pyStartsWith (s p : String) : Bool :=
  charsBeginWith s.data p.data

/-- Python s.endswith(p): the reversed characters of s begin with the
reversed characters of p. -/
def pyEndsWith (s p : String) : Bool :=
  charsBeginWith s.data.reverse p.data.reverse

/-- Split a character list on a separator character, keeping empty pieces,
as Python str.split and pathlib slash-splitting do. -/
def splitOnChar (c : Char) : List Char → List (List Char)
  | [] => [[]]
  | a :: as =>
    match splitOnChar c as with
    | [] => if a == c then [[], []] else [[a]]
    | r :: rs => if a == c then [] :: r :: rs else (a :: r) :: rs

/-- Model of a pathlib pure path: whether the path is absolute, and its
normalized segments (empty and dot segments removed, as pathlib does). -/
structure PurePath where
  absolute : Bool
  segments : List String
deriving DecidableEq

/-- The pathlib / operator: if the right operand is absolute it replaces the
left operand, otherwise the segments are concatenated. -/
def PurePath.join (p q : PurePath) : PurePath :=
  if q.absolute then q else PurePath.mk p.absolute (p.segments ++ q.segments)

/-- pathlib PurePath.name: the final segment, or the empty string when there
is none. -/
def PurePath.name (p : PurePath) : String :=
  (p.segments.getLast?).getD ("")

/-- object_key.relative_to(object_key.anchor): the same segments with the
root (anchor) stripped, hence a relative path. -/
def PurePath.relative_to_anchor (p : PurePath) : PurePath :=
  PurePath.mk false p.segments

/-- Python Path(s): absolute iff the string starts with a slash; split on
slashes, dropping empty and dot segments. -/
def parsePath (s : String) : PurePath :=
  PurePath.mk (pyStartsWith s ("/"))
    (((splitOnChar ('/') s.data).map (fun cs => String.mk cs)).filter
      (fun seg => !(seg == "" || seg == ".")))

/-- An element of a list_files argument: the bulk operations accept each key
or local path either as a str or as a Path object. -/
inductive PathOrStr where
  | str (s : String)
  | path (p : PurePath)
deriving DecidableEq

/-- One element of S3Manager._normalize_paths:
Path(item) if isinstance(item, str) else item. -/
def normalize_item : PathOrStr → PurePath
  | PathOrStr.str s => parsePath s
  | PathOrStr.path p => p

/-- S3Manager._normalize_paths (identical in src/s3_tools.py and
src/utils/s3/s3_tools.py). -/
def normalize_paths (list_files : List PathOrStr) : List PurePath :=
  list_files.map normalize_item

/-- The destination-path computation of S3Manager._download_file_single
(identical text in src/s3_tools.py lines 116-134 and
src/utils/s3/s3_tools.py lines 179-229):
if keep_structure then local_path / object_key.relative_to(object_key.anchor)
else local_path / object_key.name. -/
def full_local_path (keep_structure : Bool) (local_path object_key : PurePath) : PurePath :=
  if keep_structure then
    local_path.join object_key.relative_to_anchor
  else
    local_path.join (PurePath.mk false [object_key.name])

/-- Modelled from the spec: the destination path the spec prescribes.  For
keep_structure the local path is local_base_path with the anchor-stripped key
segments appended; otherwise it is local_base_path with only the final name
segment of the key appended. -/
def specDestPath (keep_structure : Bool) (base key : PurePath) : PurePath :=
  if keep_structure then
    PurePath.mk base.absolute (base.segments ++ key.segments)
  else
    PurePath.mk base.absolute (base.segments ++ [key.name])

/-- The destination-path computation of s3_utils.py S3Manager.download_file:
if keep_structure then local_path / object_key else
local_path / (object_key.name plus an underscore plus uuid4().hex[:8]).
The nondeterministic uuid suffix is passed as a parameter. -/
def s3_utils_download_path (keep_structure : Bool) (local_path object_key : PurePath)
    (unique_suffix : String) : PurePath :=
  if keep_structure then
    local_path.join object_key
  else
    local_path.join (PurePath.mk false [object_key.name ++ ("_") ++ unique_suffix])

/-- The destination-key computation of S3Manager.upload_files (both
src/s3_tools.py and src/utils/s3/s3_tools.py, also used by
async_upload_files and hybrid_upload_files): object_key = base_object_key / f.name. -/
def upload_object_key (base_object_key f : PurePath) : PurePath :=
  base_object_key.join (PurePath.mk false [f.name])

/-- Modelled from the spec: the upload destination key the spec prescribes,
base_key with the final name segment of the local file appended. -/
def spec_upload_key (base_key local_file : PurePath) : PurePath :=
  PurePath.mk base_key.absolute (base_key.segments ++ [local_file.name])

/-- Run one side-effecting step: either it succeeds or it raises the recorded
exception. -/
def stepResult (e : Option Exc) : Except Exc Unit :=
  match e with
  | none => Except.ok ()
  | some exc => Except.error exc

/-- Environment of one _download_file_single call in
src/utils/s3/s3_tools.py: which of its four side-effecting steps (mkdir,
head_object, open, download_fileobj) raises. -/
structure DownloadEnv where
  mkdirExc : Option Exc
  headExc : Option Exc
  openExc : Option Exc
  getExc : Option Exc
deriving DecidableEq

/-- Environment of an operation whose side-effecting steps are a mkdir
followed by a single store download call: s3_tools.py
_download_file_single and s3_utils.py download_file both have this shape. -/
structure SimpleDownloadEnv where
  mkdirExc : Option Exc
  getExc : Option Exc
deriving DecidableEq

/-- Environment of one _upload_file_single call: which of its three
side-effecting steps (os.path.getsize, open, upload_fileobj) raises. -/
structure UploadEnv where
  sizeExc : Option Exc
  openExc : Option Exc
  putExc : Option Exc
deriving DecidableEq

/-- The try-block body of _download_file_single in src/utils/s3/s3_tools.py:
mkdir, head_object, open, download_fileobj in order; the first exception
escapes the body. -/
def download_single_body (env : DownloadEnv) : Except Exc Unit := do
  stepResult env.mkdirExc
  stepResult env.headExc
  stepResult env.openExc
  stepResult env.getExc

/-- S3Manager._download_file_single of src/utils/s3/s3_tools.py: the body
under a catch-all except Exception that logs and returns False; a normal run
returns True. -/
def download_file_single (env : DownloadEnv) : Except Exc Bool :=
  match download_single_body env with
  | Except.ok _ => Except.ok true
  | Except.error _ => Except.ok false

/-- The try-block body shared in shape by s3_tools.py _download_file_single
and s3_utils.py download_file: mkdir, then one store download call. -/
def simple_download_body (env : SimpleDownloadEnv) : Except Exc Unit := do
  stepResult env.mkdirExc
  stepResult env.getExc

/-- S3Manager._download_file_single of src/s3_tools.py: mkdir and
s3_client.download_file under a catch-all except Exception returning False;
a normal run returns True. -/
def download_file_single_v1 (env : SimpleDownloadEnv) : Except Exc Bool :=
  match simple_download_body env with
  | Except.ok _ => Except.ok true
  | Except.error _ => Except.ok false

/-- S3Manager.download_file of src/s3_utils.py: mkdir and
s3_client.download_file under except ClientError only; the method returns
None on both paths, and any exception that is not a ClientError escapes. -/
def s3_utils_download_file (env : SimpleDownloadEnv) : Except Exc Unit :=
  match simple_download_body env with
  | Except.ok _ => Except.ok ()
  | Except.error e => if e.isClientError then Except.ok () else Except.error e

/-- The try-block body of _upload_file_single (src/s3_tools.py and
src/utils/s3/s3_tools.py): getsize, open, upload_fileobj in order. -/
def upload_single_body (env : UploadEnv) : Except Exc Unit := do
  stepResult env.sizeExc
  stepResult env.openExc
  stepResult env.putExc

/-- S3Manager._upload_file_single: the body under a catch-all except
Exception that logs and returns False; a normal run returns True. -/
def upload_file_single (env : UploadEnv) : Except Exc Bool :=
  match upload_single_body env with
  | Except.ok _ => Except.ok true
  | Except.error _ => Except.ok false

/-- The try-block body of _async_download_file_single in
src/utils/s3/s3_tools.py: mkdir, await head_object, open, await
download_fileobj in order. -/
def async_download_single_body (env : DownloadEnv) : Except Exc Unit := do
  stepResult env.mkdirExc
  stepResult env.headExc
  stepResult env.openExc
  stepResult env.getExc

/-- S3Manager._async_download_file_single: the async body under a catch-all
except Exception that logs and returns False; a normal run returns True. -/
def async_download_file_single (env : DownloadEnv) : Except Exc Bool :=
  match async_download_single_body env with
  | Except.ok _ => Except.ok true
  | Except.error _ => Except.ok false

/-- The try-block body of _async_upload_file_single: getsize, open, await
upload_fileobj in order. -/
def async_upload_single_body (env : UploadEnv) : Except Exc Unit := do
  stepResult env.sizeExc
  stepResult env.openExc
  stepResult env.putExc

/-- S3Manager._async_upload_file_single: the async body under a catch-all
except Exception that logs and returns False; a normal run returns True. -/
def async_upload_file_single (env : UploadEnv) : Except Exc Bool :=
  match async_upload_single_body env with
  | Except.ok _ => Except.ok true
  | Except.error _ => Except.ok false

/-- Whether an operation run returned normally (did not raise). -/
def exceptOk {α : Type} : Except Exc α → Bool
  | Except.ok _ => true
  | Except.error _ => false

/-- One iteration of the result-collection loop of
S3Manager._process_operations: try result = future.result(); if result then
success_count += 1 else failure_count += 1; except Exception then
failure_count += 1.  The pair is (success_count, failure_count). -/
def count_step (counts : Nat × Nat) (result : Except Exc Bool) : Nat × Nat :=
  match result with
  | Except.ok true => (counts.1 + 1, counts.2)
  | Except.ok false => (counts.1, counts.2 + 1)
  | Except.error _ => (counts.1, counts.2 + 1)

/-- The aggregation of S3Manager._process_operations (identical text in
src/s3_tools.py lines 32-62 and src/utils/s3/s3_tools.py lines 88-131) over
the sequence of per-future results. -/
def process_results (results : List (Except Exc Bool)) : Nat × Nat :=
  results.foldl count_step (0, 0)

/-- One iteration of the counting loop over
asyncio.gather(..., return_exceptions=True) results used by
async_download_files, async_upload_files, hybrid_download_files and
hybrid_upload_files: if isinstance(result, Exception) or not result then
failure_count += 1 else success_count += 1. -/
def gather_step (counts : Nat × Nat) (result : Except Exc Bool) : Nat × Nat :=
  match result with
  | Except.error _ => (counts.1, counts.2 + 1)
  | Except.ok false => (counts.1, counts.2 + 1)
  | Except.ok true => (counts.1 + 1, counts.2)

/-- The counting loop over the asyncio.gather result list. -/
def gather_counts (results : List (Except Exc Bool)) : Nat × Nat :=
  results.foldl gather_step (0, 0)

/-- The operations list built by download_files: one _download_file_single
call per normalized file, each paired with its own step environment. -/
def download_operations (files : List PurePath) (envs : List DownloadEnv) :
    List (Except Exc Bool) :=
  (files.zip envs).map (fun fe => download_file_single fe.2)

/-- S3Manager.download_files (pooled mode): normalize the request list, build
one operation per file and aggregate the results with _process_operations. -/
def download_files (list_files : List PathOrStr) (envs : List DownloadEnv) : Nat × Nat :=
  process_results (download_operations (normalize_paths list_files) envs)

/-- The operations list built by upload_files: one _upload_file_single call
per normalized file, each paired with its own step environment. -/
def upload_operations (files : List PurePath) (envs : List UploadEnv) :
    List (Except Exc Bool) :=
  (files.zip envs).map (fun fe => upload_file_single fe.2)

/-- S3Manager.upload_files (pooled mode): normalize the request list, build
one operation per file and aggregate the results with _process_operations. -/
def upload_files (list_files : List PathOrStr) (envs : List UploadEnv) : Nat × Nat :=
  process_results (upload_operations (normalize_paths list_files) envs)

/-- S3Manager.async_download_files: normalize the request list, schedule one
_async_download_file_single task per file, gather with
return_exceptions=True and count. -/
def async_download_files (list_files : List PathOrStr) (envs : List DownloadEnv) : Nat × Nat :=
  gather_counts (((normalize_paths list_files).zip envs).map
    (fun fe => async_download_file_single fe.2))

/-- S3Manager.async_upload_files: normalize the request list, schedule one
_async_upload_file_single task per file, gather with return_exceptions=True
and count. -/
def async_upload_files (list_files : List PathOrStr) (envs : List UploadEnv) : Nat × Nat :=
  gather_counts (((normalize_paths list_files).zip envs).map
    (fun fe => async_upload_file_single fe.2))

/-- S3Manager.hybrid_download_files: normalize the request list, delegate one
synchronous _download_file_single per file to the executor via
run_in_executor, gather with return_exceptions=True and count. -/
def hybrid_download_files (list_files : List PathOrStr) (envs : List DownloadEnv) : Nat × Nat :=
  gather_counts (((normalize_paths list_files).zip envs).map
    (fun fe => download_file_single fe.2))

/-- S3Manager.hybrid_upload_files: normalize the request list, delegate one
synchronous _upload_file_single per file to the executor via
run_in_executor, gather with return_exceptions=True and count. -/
def hybrid_upload_files (list_files : List PathOrStr) (envs : List UploadEnv) : Nat × Nat :=
  gather_counts (((normalize_paths list_files).zip envs).map
    (fun fe => upload_file_single fe.2))

/-- The result-collection loop of s3_utils.py S3Manager.parallel_download:
for future in tqdm(as_completed(futures)): future.result() -- each result is
inspected bare, so the first exception in the iteration order re-raises and
aborts the loop; a normal run returns None (no counts). -/
def collect_plain : List (Except Exc Unit) → Except Exc Unit
  | [] => Except.ok ()
  | Except.ok _ :: rest => collect_plain rest
  | Except.error e :: _ => Except.error e

/-- s3_utils.py S3Manager.parallel_download (lines 117-135): submit one
download_file call per file to the pool, then run the bare collection loop
over the results; the function itself returns None and aggregates no
counts. -/
def parallel_download (envs : List SimpleDownloadEnv) : Except Exc Unit :=
  collect_plain (envs.map s3_utils_download_file)

/-- Model of the ListObjectsV2 call: the keys of the store that start with
the given key prefix (the Contents field is absent exactly when this list is
empty). -/
def list_objects_v2 (store : List String) (pfx : String) : List String :=
  store.filter (fun k => pyStartsWith k pfx)

/-- The per-key filter of list_files:
not file_extension or key.endswith(file_extension).  A missing filter is
None; Python treats the empty string as falsy as well. -/
def extension_keeps (file_extension : Option String) (key : String) : Bool :=
  match file_extension with
  | none => true
  | some ext => (ext == "") || pyEndsWith key ext

/-- S3Manager.list_files (identical text in src/s3_tools.py lines 198-231 and
src/utils/s3/s3_tools.py lines 302-335): on a normal response, return [] when
Contents is absent, otherwise the keys passing the extension filter; a
ClientError from the store is caught, logged and turned into []; any other
exception escapes. -/
def list_files (response : Except Exc (List String)) (file_extension : Option String) :
    Except Exc (List String) :=
  match response with
  | Except.ok contents =>
      if contents.isEmpty then Except.ok []
      else Except.ok (contents.filter (fun k => extension_keeps file_extension k))
  | Except.error e =>
      if e.isClientError then Except.ok [] else Except.error e

/-- list_files composed with the store model: the response holds the keys
under the requested key prefix. -/
def list_files_over_store (store : List String) (pfx : String)
    (file_extension : Option String) : Except Exc (List String) :=
  list_files (Except.ok (list_objects_v2 store pfx)) file_extension

/-- The list a normal list_files result carries. -/
def okValue : Except Exc (List String) → List String
  | Except.ok l => l
  | Except.error _ => []

/-- Normalizing one argument element to a Path object before the call, as a
caller would with Path(item). -/
def to_path_object : PathOrStr → PathOrStr
  | PathOrStr.str s => PathOrStr.path (parsePath s)
  | PathOrStr.path p => PathOrStr.path p

/-- A per-operation result counts as a success exactly when the operation
returned True. -/
def is_success : Except Exc Bool → Bool
  | Except.ok true => true
  | Except.ok false => false
  | Except.error _ => false

theorem foldl_count_step_eq (l : List (Except Exc Bool)) :
    ∀ a b : Nat, List.foldl count_step (a, b) l =
      (a + List.countP is_success l, b + List.countP (fun r => !(is_success r)) l) := by
  induction l with
  | nil => intro a b; simp
  | cons r t ih =>
    intro a b
    cases r with
    | error e =>
      simp [List.foldl_cons, count_step, List.countP_cons, ih, is_success]
      all_goals omega
    | ok bv =>
      cases bv <;>
        simp [List.foldl_cons, count_step, List.countP_cons, ih, is_success] <;>
        omega

/-- The pooled-mode aggregation counts exactly the successes and the
non-successes, in any result order. -/
theorem process_results_eq_countP (l : List (Except Exc Bool)) :
    process_results l = (List.countP is_success l, List.countP (fun r => !(is_success r)) l) := by
  simpa using foldl_count_step_eq l 0 0

theorem foldl_gather_step_eq (l : List (Except Exc Bool)) :
    ∀ a b : Nat, List.foldl gather_step (a, b) l =
      (a + List.countP is_success l, b + List.countP (fun r => !(is_success r)) l) := by
  induction l with
  | nil => intro a b; simp
  | cons r t ih =>
    intro a b
    cases r with
    | error e =>
      simp [List.foldl_cons, gather_step, List.countP_cons, ih, is_success]
      all_goals omega
    | ok bv =>
      cases bv <;>
        simp [List.foldl_cons, gather_step, List.countP_cons, ih, is_success] <;>
        omega

/-- The async-mode aggregation counts exactly the successes and the
non-successes. -/
theorem gather_counts_eq_countP (l : List (Except Exc Bool)) :
    gather_counts l = (List.countP is_success l, List.countP (fun r => !(is_success r)) l) := by
  simpa using foldl_gather_step_eq l 0 0

/-- The two aggregation loops agree on every result list. -/
theorem gather_counts_eq_process_results (l : List (Except Exc Bool)) :
    gather_counts l = process_results l := by
  rw [gather_counts_eq_countP, process_results_eq_countP]

theorem countP_not_sum {α : Type} (p : α → Bool) (l : List α) :
    List.countP p l + List.countP (fun a => !(p a)) l = l.length := by
  induction l with
  | nil => simp
  | cons x t ih =>
    cases hx : p x <;> simp [List.countP_cons, hx] <;> omega

/-- Every aggregated pooled result pair sums to the number of results. -/
theorem process_results_sum (l : List (Except Exc Bool)) :
    (process_results l).1 + (process_results l).2 = l.length := by
  rw [process_results_eq_countP]
  exact countP_not_sum is_success l

/-- Every aggregated async result pair sums to the number of results. -/
theorem gather_counts_sum (l : List (Except Exc Bool)) :
    (gather_counts l).1 + (gather_counts l).2 = l.length := by
  rw [gather_counts_eq_process_results]
  exact process_results_sum l

/-- _download_file_single returns a Bool and never raises. -/
theorem download_file_single_never_raises (env : DownloadEnv) :
    exceptOk (download_file_single env) = true := by
  cases h : download_single_body env <;> simp [download_file_single, h, exceptOk]

/-- The src/s3_tools.py _download_file_single returns a Bool and never
raises. -/
theorem download_file_single_v1_never_raises (env : SimpleDownloadEnv) :
    exceptOk (download_file_single_v1 env) = true := by
  cases h : simple_download_body env <;> simp [download_file_single_v1, h, exceptOk]

/-- _upload_file_single returns a Bool and never raises. -/
theorem upload_file_single_never_raises (env : UploadEnv) :
    exceptOk (upload_file_single env) = true := by
  cases h : upload_single_body env <;> simp [upload_file_single, h, exceptOk]

/-- The async and sync single-file download operations agree. -/
theorem async_download_file_single_eq (env : DownloadEnv) :
    async_download_file_single env = download_file_single env := rfl

/-- The async and sync single-file upload operations agree. -/
theorem async_upload_file_single_eq (env : UploadEnv) :
    async_upload_file_single env = upload_file_single env := rfl

/-- Normalizing an element before the call and letting the bulk call
normalize it give the same Path. -/
theorem normalize_item_to_path_object (item : PathOrStr) :
    normalize_item (to_path_object item) = normalize_item item := by
  cases item <;> rfl

theorem normalize_paths_map_to_path_object (l : List PathOrStr) :
    normalize_paths (l.map to_path_object) = normalize_paths l := by
  simp [normalize_paths, List.map_map, Function.comp_def, normalize_item_to_path_object]

/-- A download environment whose store-download step raises: the model of a
request whose operation raises inside the store client. -/
def storeRaise (e : Exc) : DownloadEnv :=
  DownloadEnv.mk none none none (some e)

theorem download_file_single_storeRaise (e : Exc) :
    download_file_single (storeRaise e) = Except.ok false := rfl

/-- A normally-returning operation anywhere in the bare collection loop of
parallel_download is skipped over: the loop behaves as on the remaining
results. -/
theorem collect_plain_skip_ok (l1 l2 : List (Except Exc Unit)) (u : Unit) :
    collect_plain (l1 ++ Except.ok u :: l2) = collect_plain (l1 ++ l2) := by
  induction l1 with
  | nil => rfl
  | cons r t ih =>
    cases r with
    | ok v => exact ih
    | error e => rfl

/-- Inserting one non-success result anywhere in the result list adds exactly
one failure and leaves every other result counted as before. -/
theorem process_results_insert_failure (l1 l2 : List (Except Exc Bool))
    (r : Except Exc Bool) (hr : is_success r = false) :
    process_results (l1 ++ r :: l2) =
      ((process_results (l1 ++ l2)).1, (process_results (l1 ++ l2)).2 + 1) := by
  simp [process_results_eq_countP, List.countP_append, List.countP_cons, hr]
  all_goals omega

/-- Decidable equality of operation results. -/
instance instDecEqExcept {ε α : Type} [DecidableEq ε] [DecidableEq α] :
    DecidableEq (Except ε α) := fun x y =>
  match x, y with
  | Except.ok a, Except.ok b =>
    if h : a = b then Decidable.isTrue (by rw [h])
    else Decidable.isFalse (fun hh => h (Except.ok.inj hh))
  | Except.ok _, Except.error _ => Decidable.isFalse (fun hh => Except.noConfusion hh)
  | Except.error _, Except.ok _ => Decidable.isFalse (fun hh => Except.noConfusion hh)
  | Except.error e, Except.error f =>
    if h : e = f then Decidable.isTrue (by rw [h])
    else Decidable.isFalse (fun hh => h (Except.error.inj hh))

/-- An environment in which every download step succeeds. -/
def okDownloadEnv : DownloadEnv :=
  DownloadEnv.mk none none none none

/-- An environment in which every upload step succeeds. -/
def okUploadEnv : UploadEnv :=
  UploadEnv.mk none none none

/-- Claim C1. For every list of transfer requests processed by a bulk
operation (download_files, upload_files, async_download_files,
async_upload_files, hybrid_download_files or hybrid_upload_files), the
returned pair satisfies success_count + failure_count = number of requests:
each request is counted exactly once, as a success when its operation
returns True and as a failure when it returns False or raises. -/
theorem C1_bulk_counts_sum (files : List PathOrStr) (denvs : List DownloadEnv)
    (uenvs : List UploadEnv) (hd : denvs.length = files.length)
    (hu : uenvs.length = files.length) :
    (download_files files denvs).1 + (download_files files denvs).2 = files.length ∧
    (upload_files files uenvs).1 + (upload_files files uenvs).2 = files.length ∧
    (async_download_files files denvs).1 + (async_download_files files denvs).2 = files.length ∧
    (async_upload_files files uenvs).1 + (async_upload_files files uenvs).2 = files.length ∧
    (hybrid_download_files files denvs).1 + (hybrid_download_files files denvs).2 = files.length ∧
    (hybrid_upload_files files uenvs).1 + (hybrid_upload_files files uenvs).2 = files.length := by
  refine ⟨?_, ?_, ?_, ?_, ?_, ?_⟩ <;>
    simp [download_files, upload_files, async_download_files, async_upload_files,
      hybrid_download_files, hybrid_upload_files, download_operations, upload_operations,
      process_results_sum, gather_counts_sum, normalize_paths, hd, hu]

/-- Witness for C1 at a concrete one-request batch. -/
theorem C1_bulk_counts_sum_witness :
    (download_files [PathOrStr.str ("docs/a.pdf")] [okDownloadEnv]).1 +
        (download_files [PathOrStr.str ("docs/a.pdf")] [okDownloadEnv]).2 =
      [PathOrStr.str ("docs/a.pdf")].length ∧
    (upload_files [PathOrStr.str ("docs/a.pdf")] [okUploadEnv]).1 +
        (upload_files [PathOrStr.str ("docs/a.pdf")] [okUploadEnv]).2 =
      [PathOrStr.str ("docs/a.pdf")].length ∧
    (async_download_files [PathOrStr.str ("docs/a.pdf")] [okDownloadEnv]).1 +
        (async_download_files [PathOrStr.str ("docs/a.pdf")] [okDownloadEnv]).2 =
      [PathOrStr.str ("docs/a.pdf")].length ∧
    (async_upload_files [PathOrStr.str ("docs/a.pdf")] [okUploadEnv]).1 +
        (async_upload_files [PathOrStr.str ("docs/a.pdf")] [okUploadEnv]).2 =
      [PathOrStr.str ("docs/a.pdf")].length ∧
    (hybrid_download_files [PathOrStr.str ("docs/a.pdf")] [okDownloadEnv]).1 +
        (hybrid_download_files [PathOrStr.str ("docs/a.pdf")] [okDownloadEnv]).2 =
      [PathOrStr.str ("docs/a.pdf")].length ∧
    (hybrid_upload_files [PathOrStr.str ("docs/a.pdf")] [okUploadEnv]).1 +
        (hybrid_upload_files [PathOrStr.str ("docs/a.pdf")] [okUploadEnv]).2 =
      [PathOrStr.str ("docs/a.pdf")].length :=
  C1_bulk_counts_sum [PathOrStr.str ("docs/a.pdf")] [okDownloadEnv] [okUploadEnv] rfl rfl

/-- Claim C2 counterexample: s3_utils.py download_file with
keep_structure=False does not place the file at base joined with the final
name; it appends an underscore and a unique suffix, so downloading
docs/a.pdf to /tmp/out yields a path distinct from /tmp/out/a.pdf. -/
theorem C2_counterexample_unique_suffix :
    s3_utils_download_path false (parsePath ("/tmp/out")) (parsePath ("docs/a.pdf"))
        ("1a2b3c4d") ≠ parsePath ("/tmp/out/a.pdf") := by
  decide

/-- Claim C2 (amended): for _download_file_single (src/s3_tools.py and
src/utils/s3/s3_tools.py) the destination path is exactly as the claim
states: keep_structure=True gives local_base_path with the anchor-stripped
key appended, keep_structure=False gives local_base_path joined with only
the final name segment, and colliding final names map to the same path with
no deduplication (last writer wins).  The legacy s3_utils.py download_file
instead appends an underscore and a unique 8-character suffix to the final
name when keep_structure=False (so collisions ARE deduplicated there), and
joins the raw key when keep_structure=True, which agrees with the claim for
keys without an anchor. -/
theorem C2_amended_path_invariant (keep : Bool) (base key k1 k2 relKey : PurePath)
    (sfx : String) (hname : k1.name = k2.name) (hrel : relKey.absolute = false) :
    full_local_path keep base key = specDestPath keep base key ∧
    full_local_path false base k1 = full_local_path false base k2 ∧
    (s3_utils_download_path false base key sfx).segments =
      base.segments ++ [key.name ++ ("_") ++ sfx] ∧
    s3_utils_download_path true base relKey sfx = specDestPath true base relKey ∧
    full_local_path true (parsePath ("/tmp/out")) (parsePath ("docs/a.pdf")) =
      parsePath ("/tmp/out/docs/a.pdf") ∧
    full_local_path false (parsePath ("/tmp/out")) (parsePath ("docs/a.pdf")) =
      parsePath ("/tmp/out/a.pdf") := by
  refine ⟨?_, ?_, ?_, ?_, by decide, by decide⟩
  · cases keep <;>
      simp [full_local_path, specDestPath, PurePath.join, PurePath.relative_to_anchor]
  · simp [full_local_path, PurePath.join, hname]
  · simp [s3_utils_download_path, PurePath.join]
  · simp [s3_utils_download_path, specDestPath, PurePath.join, hrel]

/-- Witness for C2 (amended): two keys sharing the final name a.pdf land on
the same destination under keep_structure=False. -/
theorem C2_amended_path_invariant_witness :
    full_local_path false (parsePath ("/tmp/out")) (parsePath ("docs/a.pdf")) =
      full_local_path false (parsePath ("/tmp/out")) (parsePath ("other/a.pdf")) :=
  (C2_amended_path_invariant false (parsePath ("/tmp/out")) (parsePath ("docs/a.pdf"))
    (parsePath ("docs/a.pdf")) (parsePath ("other/a.pdf")) (parsePath ("docs/a.pdf"))
    ("1a2b3c4d") (by decide) (by decide)).2.1

/-- Claim C3 counterexample: in s3_utils.py download_file, an exception that
is not a botocore ClientError (here a directory-creation failure) propagates
past the operation boundary instead of being converted to a failure
signal. -/
theorem C3_counterexample_s3_utils_raises :
    s3_utils_download_file
        (SimpleDownloadEnv.mk (some (Exc.otherError ("mkdir: permission denied"))) none) =
      Except.error (Exc.otherError ("mkdir: permission denied")) := rfl

/-- Claim C3 (amended): the single-file operations of src/s3_tools.py and
src/utils/s3/s3_tools.py (_download_file_single, _upload_file_single and
their async variants) never raise past their boundary and convert every
exception into a False return: each operation evaluates to Except.ok of
whether its try-block body ran without raising, so it returns True on a
normal run and False exactly when any step raised (the sixth, seventh and
eighth conjuncts spell this out for an arbitrary exception at the directory
creation, store download and store upload steps).  The legacy s3_utils.py
download_file catches only store-client errors (ClientError), converting
those to a silent return, and lets every other exception propagate. -/
theorem C3_amended_operation_boundary (denv : DownloadEnv) (uenv : UploadEnv)
    (senv : SimpleDownloadEnv) (exc : Exc) (m1 m2 : String) :
    download_file_single denv = Except.ok (exceptOk (download_single_body denv)) ∧
    upload_file_single uenv = Except.ok (exceptOk (upload_single_body uenv)) ∧
    async_download_file_single denv =
      Except.ok (exceptOk (async_download_single_body denv)) ∧
    async_upload_file_single uenv = Except.ok (exceptOk (async_upload_single_body uenv)) ∧
    download_file_single_v1 senv = Except.ok (exceptOk (simple_download_body senv)) ∧
    download_file_single (DownloadEnv.mk (some exc) denv.headExc denv.openExc denv.getExc) =
      Except.ok false ∧
    download_file_single (DownloadEnv.mk denv.mkdirExc denv.headExc denv.openExc (some exc)) =
      Except.ok false ∧
    upload_file_single (UploadEnv.mk uenv.sizeExc uenv.openExc (some exc)) =
      Except.ok false ∧
    s3_utils_download_file (SimpleDownloadEnv.mk (some (Exc.clientError m1)) none) =
      Except.ok () ∧
    s3_utils_download_file (SimpleDownloadEnv.mk none (some (Exc.clientError m2))) =
      Except.ok () := by
  refine ⟨?_, ?_, ?_, ?_, ?_, rfl, ?_, ?_, rfl, rfl⟩
  · cases h : download_single_body denv <;> simp [download_file_single, h, exceptOk]
  · cases h : upload_single_body uenv <;> simp [upload_file_single, h, exceptOk]
  · cases h : async_download_single_body denv <;>
      simp [async_download_file_single, h, exceptOk]
  · cases h : async_upload_single_body uenv <;>
      simp [async_upload_file_single, h, exceptOk]
  · cases h : simple_download_body senv <;> simp [download_file_single_v1, h, exceptOk]
  · cases denv.mkdirExc <;> cases denv.headExc <;> cases denv.openExc <;> rfl
  · cases uenv.sizeExc <;> cases uenv.openExc <;> rfl

/-- Claim C4 counterexample: s3_utils.py parallel_download, cited by the
claim, violates fault isolation.  Its download_file catches only ClientError,
so an exception raised inside the store client that is not a ClientError
(here an EndpointConnectionError) propagates to the bare future.result()
call, which re-raises it and aborts result collection; parallel_download
raises instead of counting the other operation, and returns no counts. -/
theorem C4_counterexample_parallel_download :
    parallel_download
        [SimpleDownloadEnv.mk none (some (Exc.otherError ("EndpointConnectionError"))),
          SimpleDownloadEnv.mk none none] =
      Except.error (Exc.otherError ("EndpointConnectionError")) := rfl

/-- Claim C4 (amended): fault isolation holds for the count-returning bulk
operations: when operation i of N raises inside the store client, every
other operation still runs and is counted, and the raising operation
contributes exactly one failure without aborting the batch.  The first
conjunct states this at the bulk level for a store-client exception inside
_download_file_single; the next two state it for a raw exception surfacing
as a raising future in _process_operations and as an exception value in the
asyncio.gather result list.  The legacy s3_utils.py parallel_download
returns no counts at all; there, only a ClientError inside the store client
is harmless -- download_file swallows it, so the bare collection loop still
walks the other N-1 results (last conjunct) -- while any other exception
inside the store client aborts result collection. -/
theorem C4_amended_fault_isolation (fpre fpost : List PathOrStr) (f : PathOrStr)
    (pre post : List DownloadEnv) (spre spost : List SimpleDownloadEnv)
    (e : Exc) (m : String) (rs1 rs2 : List (Except Exc Bool))
    (h1 : pre.length = fpre.length) :
    download_files (fpre ++ f :: fpost) (pre ++ storeRaise e :: post) =
      ((download_files (fpre ++ fpost) (pre ++ post)).1,
        (download_files (fpre ++ fpost) (pre ++ post)).2 + 1) ∧
    process_results (rs1 ++ Except.error e :: rs2) =
      ((process_results (rs1 ++ rs2)).1, (process_results (rs1 ++ rs2)).2 + 1) ∧
    gather_counts (rs1 ++ Except.error e :: rs2) =
      ((gather_counts (rs1 ++ rs2)).1, (gather_counts (rs1 ++ rs2)).2 + 1) ∧
    parallel_download
        (spre ++ SimpleDownloadEnv.mk none (some (Exc.clientError m)) :: spost) =
      parallel_download (spre ++ spost) := by
  have hA : (List.map normalize_item fpre).length = pre.length := by
    simp [h1]
  refine ⟨?_, ?_, ?_, ?_⟩
  · simp only [download_files, download_operations, normalize_paths, List.map_append,
      List.map_cons, List.zip_append hA, List.zip_cons_cons]
    exact process_results_insert_failure _ _ _ rfl
  · exact process_results_insert_failure rs1 rs2 _ rfl
  · simp only [gather_counts_eq_process_results]
    exact process_results_insert_failure rs1 rs2 _ rfl
  · simp only [parallel_download, List.map_append, List.map_cons]
    exact collect_plain_skip_ok _ _ ()

/-- Witness for C4 (amended): in a two-request batch whose first store call
raises, the second request is still counted and the batch returns one
failure more than the one-request batch. -/
theorem C4_amended_fault_isolation_witness :
    download_files [PathOrStr.str ("a.pdf"), PathOrStr.str ("b.pdf")]
        [storeRaise (Exc.clientError ("timeout")), okDownloadEnv] =
      ((download_files [PathOrStr.str ("b.pdf")] [okDownloadEnv]).1,
        (download_files [PathOrStr.str ("b.pdf")] [okDownloadEnv]).2 + 1) :=
  (C4_amended_fault_isolation [] [PathOrStr.str ("b.pdf")] (PathOrStr.str ("a.pdf"))
    [] [okDownloadEnv] [] [SimpleDownloadEnv.mk none none] (Exc.clientError ("timeout"))
    ("AccessDenied") [] [Except.ok true] rfl).1

/-- Claim C5. The pooled, async and hybrid bulk modes satisfy the same
aggregate contract: for the same requests with the same per-operation
outcomes they return the same (success_count, failure_count) pair -- the
pooled mode in whatever completion order its futures finish -- and the pair
sums to the number of requests, so no failure or exception of one operation
keeps another from being counted. -/
theorem C5_modes_agree (files : List PathOrStr) (denvs : List DownloadEnv)
    (uenvs : List UploadEnv) (completed : List (Except Exc Bool))
    (hd : denvs.length = files.length) (hu : uenvs.length = files.length)
    (hperm : completed.Perm (download_operations (normalize_paths files) denvs)) :
    process_results completed = download_files files denvs ∧
    download_files files denvs = async_download_files files denvs ∧
    download_files files denvs = hybrid_download_files files denvs ∧
    upload_files files uenvs = async_upload_files files uenvs ∧
    upload_files files uenvs = hybrid_upload_files files uenvs ∧
    (download_files files denvs).1 + (download_files files denvs).2 = files.length ∧
    (upload_files files uenvs).1 + (upload_files files uenvs).2 = files.length := by
  have hp1 := List.Perm.countP_eq is_success hperm
  have hp2 := List.Perm.countP_eq (fun r => !(is_success r)) hperm
  have hasync_d : (fun fe : PurePath × DownloadEnv => async_download_file_single fe.2) =
      (fun fe : PurePath × DownloadEnv => download_file_single fe.2) := by
    funext fe
    exact async_download_file_single_eq fe.2
  have hasync_u : (fun fe : PurePath × UploadEnv => async_upload_file_single fe.2) =
      (fun fe : PurePath × UploadEnv => upload_file_single fe.2) := by
    funext fe
    exact async_upload_file_single_eq fe.2
  refine ⟨?_, ?_, ?_, ?_, ?_, ?_, ?_⟩
  · simp only [download_files, process_results_eq_countP, hp1, hp2]
  · simp only [download_files, async_download_files, gather_counts_eq_process_results,
      download_operations, hasync_d]
  · simp only [download_files, hybrid_download_files, gather_counts_eq_process_results,
      download_operations]
  · simp only [upload_files, async_upload_files, gather_counts_eq_process_results,
      upload_operations, hasync_u]
  · simp only [upload_files, hybrid_upload_files, gather_counts_eq_process_results,
      upload_operations]
  · simp [download_files, download_operations, process_results_sum, normalize_paths, hd]
  · simp [upload_files, upload_operations, process_results_sum, normalize_paths, hu]

/-- Witness for C5: concrete two-request batch in reversed completion
order, one request failing at the store call. -/
theorem C5_modes_agree_witness :
    process_results
        ((download_operations
          (normalize_paths [PathOrStr.str ("a.pdf"), PathOrStr.str ("b.pdf")])
          [storeRaise (Exc.otherError ("boom")), okDownloadEnv]).reverse) =
      download_files [PathOrStr.str ("a.pdf"), PathOrStr.str ("b.pdf")]
        [storeRaise (Exc.otherError ("boom")), okDownloadEnv] :=
  (C5_modes_agree [PathOrStr.str ("a.pdf"), PathOrStr.str ("b.pdf")]
    [storeRaise (Exc.otherError ("boom")), okDownloadEnv] [okUploadEnv, okUploadEnv]
    ((download_operations
      (normalize_paths [PathOrStr.str ("a.pdf"), PathOrStr.str ("b.pdf")])
      [storeRaise (Exc.otherError ("boom")), okDownloadEnv]).reverse)
    rfl rfl (List.reverse_perm _)).1

/-- Claim C6. list_files returns exactly the keys under the prefix that pass
the extension filter (all of them when no filter is given), and the empty
sequence -- not an error -- when nothing lies under the prefix; over a store
holding exactly docs/a.pdf and docs/b.pdf, prefix docs/ returns both keys
with filter .pdf and the empty sequence with filter .txt. -/
theorem C6_list_exact (store emptyStore : List String) (pfx k : String)
    (file_extension : Option String)
    (hempty : list_objects_v2 emptyStore pfx = []) :
    (k ∈ okValue (list_files_over_store store pfx file_extension) ↔
      (k ∈ store ∧ pyStartsWith k pfx = true ∧ extension_keeps file_extension k = true)) ∧
    list_files_over_store store pfx file_extension =
      Except.ok (okValue (list_files_over_store store pfx file_extension)) ∧
    list_files_over_store emptyStore pfx file_extension = Except.ok [] ∧
    list_files_over_store ["docs/a.pdf", "docs/b.pdf"] ("docs/") (some (".pdf")) =
      Except.ok ["docs/a.pdf", "docs/b.pdf"] ∧
    list_files_over_store ["docs/a.pdf", "docs/b.pdf"] ("docs/") (some (".txt")) =
      Except.ok [] ∧
    list_files_over_store ["docs/a.pdf", "docs/b.pdf"] ("docs/") none =
      Except.ok ["docs/a.pdf", "docs/b.pdf"] := by
  have h1 : k ∈ okValue (list_files_over_store store pfx file_extension) ↔
      (k ∈ store ∧ pyStartsWith k pfx = true ∧ extension_keeps file_extension k = true) := by
    by_cases hc : list_objects_v2 store pfx = []
    · simp only [list_files_over_store, list_files, hc, List.isEmpty_nil, if_true, okValue]
      constructor
      · intro h
        exact absurd h (List.not_mem_nil k)
      · rintro ⟨hk, hs, _⟩
        have hmem : k ∈ list_objects_v2 store pfx := by
          simp [list_objects_v2, List.mem_filter, hk, hs]
        rw [hc] at hmem
        exact absurd hmem (List.not_mem_nil k)
    · have hc2 : (list_objects_v2 store pfx).isEmpty = false := by
        simpa [List.isEmpty_iff] using hc
      have hres : list_files_over_store store pfx file_extension =
          Except.ok ((list_objects_v2 store pfx).filter
            (fun kk => extension_keeps file_extension kk)) := by
        simp [list_files_over_store, list_files, hc2]
      rw [hres]
      simp only [okValue]
      constructor
      · intro hm
        have hm1 := List.mem_filter.mp hm
        have hm0 : k ∈ store.filter (fun a => pyStartsWith a pfx) := hm1.1
        have hm2 := List.mem_filter.mp hm0
        exact ⟨hm2.1, hm2.2, hm1.2⟩
      · rintro ⟨hk, hs, hx⟩
        have hm0 : k ∈ store.filter (fun a => pyStartsWith a pfx) :=
          List.mem_filter.mpr ⟨hk, hs⟩
        exact List.mem_filter.mpr ⟨hm0, hx⟩
  have h2 : list_files_over_store store pfx file_extension =
      Except.ok (okValue (list_files_over_store store pfx file_extension)) := by
    cases hc : (list_objects_v2 store pfx).isEmpty <;>
      simp [list_files_over_store, list_files, hc, okValue]
  have h3 : list_files_over_store emptyStore pfx file_extension = Except.ok [] := by
    simp [list_files_over_store, list_files, hempty, okValue]
  exact ⟨h1, h2, h3, by decide, by decide, by decide⟩

/-- Witness for C6: docs/a.pdf is among the keys returned for prefix docs/
with filter .pdf, and it lies in the store, under the prefix, and passes the
filter. -/
theorem C6_list_exact_witness :
    ("docs/a.pdf" ∈ ["docs/a.pdf", "docs/b.pdf"] ∧
      pyStartsWith ("docs/a.pdf") ("docs/") = true ∧
      extension_keeps (some (".pdf")) ("docs/a.pdf") = true) :=
  (C6_list_exact ["docs/a.pdf", "docs/b.pdf"] [] ("docs/") ("docs/a.pdf")
    (some (".pdf")) rfl).1.mp (by decide)

/-- Claim C7. The upload destination key is base_key joined with only the
final name of the local file -- local directory structure above the name is
never preserved -- and uploading x.txt and y.txt under base key up/ creates
keys up/x.txt and up/y.txt, returning (2, 0) when both succeed. -/
theorem C7_upload_key (base f f1 f2 : PurePath) (hname : f1.name = f2.name) :
    upload_object_key base f = spec_upload_key base f ∧
    upload_object_key base f1 = upload_object_key base f2 ∧
    upload_object_key (parsePath ("up/")) (parsePath ("x.txt")) = parsePath ("up/x.txt") ∧
    upload_object_key (parsePath ("up/")) (parsePath ("y.txt")) = parsePath ("up/y.txt") ∧
    upload_object_key (parsePath ("up/")) (parsePath ("local/dir/y.txt")) =
      parsePath ("up/y.txt") ∧
    upload_files [PathOrStr.str ("x.txt"), PathOrStr.str ("y.txt")]
      [okUploadEnv, okUploadEnv] = (2, 0) := by
  refine ⟨?_, ?_, by decide, by decide, by decide, by decide⟩
  · simp [upload_object_key, spec_upload_key, PurePath.join]
  · simp [upload_object_key, PurePath.join, hname]

/-- Witness for C7: two local files sharing the name z.txt in different
directories map to the same destination key. -/
theorem C7_upload_key_witness :
    upload_object_key (parsePath ("up/")) (parsePath ("a/z.txt")) =
      upload_object_key (parsePath ("up/")) (parsePath ("b/z.txt")) :=
  (C7_upload_key (parsePath ("up/")) (parsePath ("x.txt")) (parsePath ("a/z.txt"))
    (parsePath ("b/z.txt")) (by decide)).2.1

/-- Claim C8 counterexample: a transport failure that is not a botocore
ClientError -- such as an EndpointConnectionError raised on connection
refused -- is not caught by the except ClientError handler of list_files and
propagates to the caller instead of degrading to an empty result. -/
theorem C8_counterexample_transport_error :
    list_files
        (Except.error (Exc.otherError ("EndpointConnectionError: connection refused")))
        (some (".pdf")) =
      Except.error (Exc.otherError ("EndpointConnectionError: connection refused")) := rfl

/-- Claim C8 (amended): whenever the underlying list call raises a botocore
ClientError (an HTTP-level store error, including auth failures), list_files
catches it, logs it and returns the empty sequence instead of raising to the
caller; a store failure that is not a ClientError -- such as a
transport-level EndpointConnectionError -- propagates. -/
theorem C8_amended_client_error_only (e1 e2 : Exc) (fe1 fe2 : Option String)
    (h1 : e1.isClientError = true) (h2 : e2.isClientError = false) :
    list_files (Except.error e1) fe1 = Except.ok [] ∧
    list_files (Except.error e2) fe2 = Except.error e2 := by
  constructor
  · simp [list_files, h1]
  · simp [list_files, h2]

/-- Witness for C8 (amended) at a concrete ClientError and a concrete
transport error. -/
theorem C8_amended_client_error_only_witness :
    list_files (Except.error (Exc.clientError ("AccessDenied"))) (some (".pdf")) =
      Except.ok [] ∧
    list_files (Except.error (Exc.otherError ("EndpointConnectionError"))) none =
      Except.error (Exc.otherError ("EndpointConnectionError")) :=
  C8_amended_client_error_only (Exc.clientError ("AccessDenied"))
    (Exc.otherError ("EndpointConnectionError")) (some (".pdf")) none rfl rfl

/-- Claim C9. A bulk operation called with an empty request list returns
exactly (0, 0): the built operations list is empty, so no store call is made
and both counters stay zero. -/
theorem C9_empty_batch (denvs : List DownloadEnv) (uenvs : List UploadEnv) :
    download_files [] denvs = (0, 0) ∧
    upload_files [] uenvs = (0, 0) ∧
    async_download_files [] denvs = (0, 0) ∧
    async_upload_files [] uenvs = (0, 0) ∧
    hybrid_download_files [] denvs = (0, 0) ∧
    hybrid_upload_files [] uenvs = (0, 0) ∧
    download_operations (normalize_paths []) denvs = [] ∧
    upload_operations (normalize_paths []) uenvs = [] :=
  ⟨rfl, rfl, rfl, rfl, rfl, rfl, rfl, rfl⟩

/-- Claim C10. Each key or local path may be passed as a str or as a Path
object, and the two forms are equivalent: normalizing every element to a
Path object before the call yields the same normalized list, the same
computed destination paths and the same counts as passing the mixed list
directly. -/
theorem C10_normalization_equiv (files : List PathOrStr) (denvs : List DownloadEnv)
    (uenvs : List UploadEnv) (keep : Bool) (base : PurePath) :
    normalize_paths (files.map to_path_object) = normalize_paths files ∧
    (normalize_paths (files.map to_path_object)).map (full_local_path keep base) =
      (normalize_paths files).map (full_local_path keep base) ∧
    download_files (files.map to_path_object) denvs = download_files files denvs ∧
    upload_files (files.map to_path_object) uenvs = upload_files files uenvs ∧
    async_download_files (files.map to_path_object) denvs =
      async_download_files files denvs ∧
    async_upload_files (files.map to_path_object) uenvs = async_upload_files files uenvs ∧
    hybrid_download_files (files.map to_path_object) denvs =
      hybrid_download_files files denvs ∧
    hybrid_upload_files (files.map to_path_object) uenvs =
      hybrid_upload_files files uenvs := by
  have h := normalize_paths_map_to_path_object files
  refine ⟨h, ?_, ?_, ?_, ?_, ?_, ?_, ?_⟩ <;>
    simp only [download_files, upload_files, async_download_files, async_upload_files,
      hybrid_download_files, hybrid_upload_files, download_operations, upload_operations, h]

end ScriptForge
